import Mathlib

/-
Formal model of the Pixel-Civilization simulation engine (src/main.cpp).

Modelling conventions:
- C++ float fields are modelled as rationals (exact arithmetic over the real
  semantics of the program); machine ints and unsigned ints as Int / Nat.
  None of the properties below depends on IEEE rounding.
- Every generate_random(min, max) call site (a uniform draw over the inclusive
  integer interval [min, max]) is modelled by an explicit draw parameter of the
  step function; hypotheses constrain the draw to the interval passed at that
  call site whenever a property depends on it.
- The per-cell body of the update lambda mutates the current cell p, possibly
  the person at the randomly chosen destination, and the image buffer.  The
  destination lookups (the pixel test against the grass tile color and the
  Person at the destination) are passed in as parameters destIsGrass / target0;
  image-buffer writes are not modelled.
-/

namespace PixelCiv

/-- RGBA color, modelling sf::Color. -/
structure Color where
  r : Nat
  g : Nat
  b : Nat
  a : Nat
deriving DecidableEq, Repr

/-- sf::Color::White. -/
def White : Color := ⟨255, 255, 255, 255⟩

/-- The team-red color of main.cpp line 247. -/
def Red : Color := ⟨255, 0, 0, 255⟩

/-- The team-blue color of main.cpp line 250. -/
def Blue : Color := ⟨0, 128, 255, 255⟩

/-- A single entity of the population (struct Person, main.cpp lines 31-41). -/
structure Person where
  is_updated : Bool
  active : Bool
  color : Color
  is_male : Bool
  disease : ℚ
  reproduction : ℚ
  age : ℚ
  strength : Int
deriving DecidableEq, Repr

/-- Records statistics on the population (struct PopulationStats, lines 46-52). -/
structure PopulationStats where
  count_total : Int
  count_diseased : Int
  sum_strength : Int
  sum_age : Int
deriving DecidableEq, Repr

/-- The all-zero statistics record (line 294). -/
def zeroStats : PopulationStats := ⟨0, 0, 0, 0⟩

/-- Numeric properties of the simulation (struct Config, lines 84-93). -/
structure Config where
  WindowWidth : Nat
  WindowHeight : Nat
  MapWidth : Nat
  MapHeight : Nat
  DiseasedAgingFactor : ℚ
  ChanceForDisease : Nat
  MaxLengthDisease : ℚ
  MinYearsUntilReproduce : Nat
  MaxYearsUntilReproduce : Nat
  MinStartStrength : Nat
  MaxStartStrength : Nat
deriving DecidableEq, Repr

/-- The Config value loaded in main (lines 187-195). -/
def cfg0 : Config := ⟨1280, 720, 640, 360, 16, 20000, 2, 3, 12, 40, 85⟩

/-- C-style truncation toward zero, modelling static_cast from float to int. -/
def ratTruncToInt (q : ℚ) : Int := if 0 ≤ q then q.floor else q.ceil

/-- The value a dead cell is reset to by line 338
(p = \x7b false, false, sf::Color::White, 0.f, 0 \x7d: the five initializers
give is_updated, active, color, is_male, disease; the remaining fields are
value-initialized to zero).  It coincides with the initial grid fill value of
the Map constructor (line 74). -/
def deadPerson : Person :=
  { is_updated := false, active := false, color := White, is_male := false,
    disease := 0, reproduction := 0, age := 0, strength := 0 }

/-- random_destination (lines 108-119); draw models generate_random(0, 4),
so draw ranges over the five values 0..4 (case 4 falls through the switch and
leaves the position unchanged). -/
def random_destination (start_x start_y map_width map_height : Nat)
    (draw : Nat) : Nat × Nat :=
  match draw with
  | 0 => if start_x < map_width then (start_x + 1, start_y) else (start_x, start_y)
  | 1 => if start_y < map_height then (start_x, start_y + 1) else (start_x, start_y)
  | 2 => if 0 < start_x then (start_x - 1, start_y) else (start_x, start_y)
  | 3 => if 0 < start_y then (start_x, start_y - 1) else (start_x, start_y)
  | _ => (start_x, start_y)

/-- The statistics delta recorded for an active, not-yet-updated person
(lines 329-332), taken before the aging step; sum_age adds the truncation of
the float age to int. -/
def recordStats (p : Person) : PopulationStats :=
  { count_total := 1,
    count_diseased := if 0 < p.disease then 1 else 0,
    sum_strength := p.strength,
    sum_age := ratTruncToInt p.age }

/-- Aging and death check (lines 334-339). -/
def agingStep (dt : ℚ) (p : Person) : Person :=
  let q : Person := { p with age := p.age + dt }
  if q.age ≥ (q.strength : ℚ) ∨ q.age ≥ 85 then deadPerson else q

/-- Reproduction countdown (lines 341-345), applied to non-male persons. -/
def reproStep (dt : ℚ) (p : Person) : Person :=
  if p.is_male then p else { p with reproduction := p.reproduction - dt }

/-- Disease handling (lines 347-357).  chanceDraw models
generate_random(0, ChanceForDisease) and lengthDraw models
generate_random(1, int(MaxLengthDisease)). -/
def diseaseStep (cfg : Config) (dt : ℚ) (p : Person)
    (chanceDraw lengthDraw : Nat) : Person :=
  if 0 < p.disease then
    { p with age := p.age + dt * cfg.DiseasedAgingFactor,
             disease := p.disease - dt }
  else if chanceDraw = 1 then
    { p with disease := (lengthDraw : ℚ) }
  else p

/-- The sequence of in-place mutations of the current cell before the
movement / interaction phase: aging and death check, reproduction countdown,
disease handling (lines 334-357 in program order). -/
def preSteps (cfg : Config) (dt : ℚ) (p : Person)
    (chanceDraw lengthDraw : Nat) : Person :=
  diseaseStep cfg dt (reproStep dt (agingStep dt p)) chanceDraw lengthDraw

/-- The lower bound passed to generate_random for a newborn strength
(line 380: p.strength > 15 ? p.strength - 15 : 15). -/
def birth_strength_min (s : Int) : Int := if 15 < s then s - 15 else 15

/-- The upper bound passed to generate_random for a newborn strength
(line 380: p.strength + 30). -/
def birth_strength_max (s : Int) : Int := s + 30

/-- Modelled from the spec: section 4.2 of spec.md states the newborn strength
lower bound as max(parentStrength - 15, 15).  Stated here only for comparison
with birth_strength_min, which is what the source passes to generate_random. -/
def spec_birth_strength_min (s : Int) : Int := max (s - 15) 15

/-- One parameter per generate_random call site inside the per-cell update
body, in source order: line 353 (disease chance), line 356 (disease length),
line 363 via random_destination (destination), line 374 (parent reproduction
reset), line 378 (newborn sex, cast to bool so nonzero means male), line 379
(newborn reproduction), line 380 (newborn strength), line 397 (infection
coin). -/
structure Draws where
  diseaseChance : Nat
  diseaseLength : Nat
  destination : Nat
  reproReset : Nat
  babySex : Nat
  babyRepro : Nat
  babyStrength : Int
  infectCoin : Nat
deriving DecidableEq, Repr

/-- The result of processing one cell: the new value of the cell itself, the
new value of the person at the destination, and the statistics delta
accumulated into population_stats for the cell's color. -/
structure StepResult where
  self : Person
  target : Person
  stats : PopulationStats
deriving DecidableEq, Repr

/-- The baby-creation block (lines 371-384): the first component is the new
value of the acting cell p (reproduction reset, line 374), the second the
person written to the target cell (lines 377-382: copy of p, then sex,
reproduction, strength, age and updated flag overwritten). -/
def birthStep (p : Person) (dr : Draws) : Person × Person :=
  let p5 : Person := { p with reproduction := (dr.reproReset : ℚ) }
  let baby : Person :=
    { p5 with
      is_male := (dr.babySex != 0),
      reproduction := (dr.babyRepro : ℚ),
      strength := dr.babyStrength, age := 1, is_updated := true }
  (p5, baby)

/-- The combat block (lines 403-411): first component is the new value of the
acting cell p, second the new value of the enemy target. -/
def combatStep (p t : Person) : Person × Person :=
  if p.strength < t.strength then ({ p with age := (p.strength : ℚ) }, t)
  else (p, { t with age := (p.strength : ℚ) })

/-- The per-cell body of the update_population_in_range lambda
(lines 318-429).  destIsGrass is the test of line 366 (the image-buffer pixel
at the destination equals the tile-grass color) and target0 is the Person at
the destination (line 368); both are supplied by the caller because they
depend on the image buffer and the grid, which are abstracted here. -/
def update_person (cfg : Config) (dt : ℚ) (p0 : Person) (dr : Draws)
    (destIsGrass : Bool) (target0 : Person) : StepResult :=
  if p0.active && p0.is_updated then
    { self := { p0 with is_updated := false }, target := target0,
      stats := zeroStats }
  else if p0.active then
    let stats := recordStats p0
    let p4 := preSteps cfg dt p0 dr.diseaseChance dr.diseaseLength
    if destIsGrass then
      if !target0.active then
        if p4.is_male = false ∧ p4.reproduction ≤ 0 then
          let b := birthStep p4 dr
          { self := b.1, target := b.2, stats := stats }
        else
          { self := { p4 with active := false },
            target := { p4 with is_updated := true }, stats := stats }
      else if target0.color = p4.color then
        if 0 < p4.disease ∧ dr.infectCoin = 1 then
          { self := p4, target := { target0 with disease := p4.disease },
            stats := stats }
        else
          { self := p4, target := target0, stats := stats }
      else
        let c := combatStep p4 target0
        { self := c.1, target := c.2, stats := stats }
    else
      { self := p4, target := target0, stats := stats }
  else
    { self := p0, target := target0, stats := zeroStats }

/-- struct Map (lines 57-79): the dense row-major population grid. -/
structure Map where
  Width : Nat
  Height : Nat
  population_grid : List Person
deriving DecidableEq, Repr

/-- TotalCells (line 61). -/
def Map.TotalCells (m : Map) : Nat := m.Width * m.Height

/-- Cell access (line 78): operator() returns
population_grid[y * Width + x] with no coordinate bounds check; the Option is
none exactly when the row-major index falls outside the underlying vector
(undefined behavior in the C++). -/
def Map.cell (m : Map) (x y : Nat) : Option Person :=
  m.population_grid[y * m.Width + x]?

/-- The four (from_idx, length) argument pairs passed to
update_population_in_range by the thread_list of lines 433-438, as a function
of TotalCells. -/
def thread_list (total : Nat) : List (Nat × Nat) :=
  [(0, total / 4), (total / 4, total / 4),
   (total / 4 * 2, total / 4), (total / 4 * 3, total / 4)]

/-- How many of the given (from, length) ranges contain row-major index i. -/
def coverCount : List (Nat × Nat) → Nat → Nat
  | [], _ => 0
  | r :: rs, i => (if r.1 ≤ i ∧ i < r.1 + r.2 then 1 else 0) + coverCount rs i

/-- The per-team average computation of population_statistics_to_string
(lines 148-157): sum / (count > 0 ? count : 1). -/
def stat_avg (sum count : Nat) : Nat := sum / (if 0 < count then count else 1)

/-- The inert-defaults condition of the spec's data-model invariant
(spec.md section 3): no disease, no age, no reproduction countdown,
strength 0, default sex and group, updated flag clear. -/
def inert (p : Person) : Prop :=
  p.disease = 0 ∧ p.age = 0 ∧ p.reproduction = 0 ∧ p.strength = 0 ∧
  p.is_male = false ∧ p.color = White ∧ p.is_updated = false

/-- The full per-cell invariant claimed by the spec: an inactive cell is
inert, an active cell has positive strength. -/
def cellInvariant (p : Person) : Prop :=
  (p.active = false → inert p) ∧ (p.active = true → 0 < p.strength)

instance (p : Person) : Decidable (inert p) := by
  unfold inert
  infer_instance

instance (p : Person) : Decidable (cellInvariant p) := by
  unfold cellInvariant
  infer_instance

/-- C1: the transition rule does not preserve the inactive-cells-are-inert
invariant.  The failing input is an active male person of the reference
configuration whose age check fires in this tick (age 50 + 1 at strength 40):
line 338 resets the cell to the inert defaults, but the following steps still
run on it, and the reproduction countdown of line 344 (the reset made the
cell non-male) drags the dead cell's reproduction field to -1, so the
inactive cell no longer has its fields at the inert defaults at the end of
the rule application.  Both the cell and the (untouched) destination cell
satisfy the invariant before the step. -/
theorem c1_death_reset_breaks_invariant :
    cellInvariant
      { is_updated := false, active := true, color := Red, is_male := true,
        disease := 0, reproduction := 5, age := 50, strength := 40 } ∧
    cellInvariant deadPerson ∧
    (update_person cfg0 1
      { is_updated := false, active := true, color := Red, is_male := true,
        disease := 0, reproduction := 5, age := 50, strength := 40 }
      { diseaseChance := 0, diseaseLength := 1, destination := 4,
        reproReset := 7, babySex := 1, babyRepro := 5, babyStrength := 20,
        infectCoin := 0 }
      false deadPerson).self.active = false ∧
    (update_person cfg0 1
      { is_updated := false, active := true, color := Red, is_male := true,
        disease := 0, reproduction := 5, age := 50, strength := 40 }
      { diseaseChance := 0, diseaseLength := 1, destination := 4,
        reproReset := 7, babySex := 1, babyRepro := 5, babyStrength := 20,
        infectCoin := 0 }
      false deadPerson).self.reproduction = -1 ∧
    ¬ cellInvariant (update_person cfg0 1
      { is_updated := false, active := true, color := Red, is_male := true,
        disease := 0, reproduction := 5, age := 50, strength := 40 }
      { diseaseChance := 0, diseaseLength := 1, destination := 4,
        reproReset := 7, babySex := 1, babyRepro := 5, babyStrength := 20,
        infectCoin := 0 }
      false deadPerson).self := by
  norm_num [update_person, preSteps, agingStep, reproStep, diseaseStep,
    birthStep, combatStep, deadPerson, cfg0, cellInvariant, inert, Red, White,
    recordStats, zeroStats]

/-- C2: the movement target selection can leave the grid.  On the reference
640-wide map, a cell in the last column (x = 639) drawing direction 0 (east)
is moved to x = 640, because the guard of line 113 tests x < width instead of
x + 1 < width; 640 is not a valid column, so the destination is out of
bounds, not clamped.  In addition, the draw of line 111 is
generate_random(0, 4), which has five equally likely outcomes: the fifth
value (4) falls through the switch and leaves the position unchanged, so the
four neighbors are not chosen uniformly among themselves. -/
theorem c2_destination_out_of_bounds :
    random_destination 639 100 640 360 0 = (640, 100) ∧
    ¬ (random_destination 639 100 640 360 0).1 < 640 ∧
    random_destination 5 5 640 360 4 = (5, 5) := by
  decide

/-- C3: processing does not stop when the death check fires.  Failing input:
an active male person of the reference configuration dying this tick
(age 50 + 1 at strength 40), with a walkable inactive destination.  After the
reset of line 338 the rule keeps going: the reproduction countdown makes the
dead cell eligible for birth (the reset cleared is_male and the countdown made
reproduction negative), and the birth block then writes a ghost cell to the
destination: inactive (active was copied from the dead parent) yet with
age 1, random strength and the updated flag set.  The dead cell itself ends
with reproduction reset to the draw 7 instead of the inert 0. -/
theorem c3_processing_continues_after_death :
    (update_person cfg0 1
      { is_updated := false, active := true, color := Red, is_male := true,
        disease := 0, reproduction := 5, age := 50, strength := 40 }
      { diseaseChance := 0, diseaseLength := 1, destination := 4,
        reproReset := 7, babySex := 1, babyRepro := 5, babyStrength := 20,
        infectCoin := 0 }
      true deadPerson).self.active = false ∧
    (update_person cfg0 1
      { is_updated := false, active := true, color := Red, is_male := true,
        disease := 0, reproduction := 5, age := 50, strength := 40 }
      { diseaseChance := 0, diseaseLength := 1, destination := 4,
        reproReset := 7, babySex := 1, babyRepro := 5, babyStrength := 20,
        infectCoin := 0 }
      true deadPerson).self.reproduction = 7 ∧
    (update_person cfg0 1
      { is_updated := false, active := true, color := Red, is_male := true,
        disease := 0, reproduction := 5, age := 50, strength := 40 }
      { diseaseChance := 0, diseaseLength := 1, destination := 4,
        reproReset := 7, babySex := 1, babyRepro := 5, babyStrength := 20,
        infectCoin := 0 }
      true deadPerson).target.active = false ∧
    (update_person cfg0 1
      { is_updated := false, active := true, color := Red, is_male := true,
        disease := 0, reproduction := 5, age := 50, strength := 40 }
      { diseaseChance := 0, diseaseLength := 1, destination := 4,
        reproReset := 7, babySex := 1, babyRepro := 5, babyStrength := 20,
        infectCoin := 0 }
      true deadPerson).target.age = 1 ∧
    (update_person cfg0 1
      { is_updated := false, active := true, color := Red, is_male := true,
        disease := 0, reproduction := 5, age := 50, strength := 40 }
      { diseaseChance := 0, diseaseLength := 1, destination := 4,
        reproReset := 7, babySex := 1, babyRepro := 5, babyStrength := 20,
        infectCoin := 0 }
      true deadPerson).target.is_updated = true := by
  norm_num [update_person, preSteps, agingStep, reproStep, diseaseStep,
    birthStep, combatStep, deadPerson, cfg0, recordStats, zeroStats]

/-- C4 counterexample: the loser's age is not set to the opponent's strength
when the acting cell is the weaker one, and equal strengths do not spare the
target.  With acting strength 10 against target strength 20, the combat block
(lines 406-409) runs p.age = p.strength, writing the acting cell's OWN
strength 10, not the opponent's 20; and with equal strengths 30 the else
branch fires, so the target's age is overwritten (to 30) while the acting
cell is the one left untouched. -/
theorem c4_weaker_actor_gets_own_strength_cex :
    (combatStep
      { is_updated := false, active := true, color := Red, is_male := true,
        disease := 0, reproduction := 5, age := 3, strength := 10 }
      { is_updated := false, active := true, color := Blue, is_male := true,
        disease := 0, reproduction := 5, age := 3, strength := 20 }).1.age = 10 ∧
    ¬ (combatStep
      { is_updated := false, active := true, color := Red, is_male := true,
        disease := 0, reproduction := 5, age := 3, strength := 10 }
      { is_updated := false, active := true, color := Blue, is_male := true,
        disease := 0, reproduction := 5, age := 3, strength := 20 }).1.age = 20 ∧
    (combatStep
      { is_updated := false, active := true, color := Red, is_male := true,
        disease := 0, reproduction := 5, age := 3, strength := 30 }
      { is_updated := false, active := true, color := Blue, is_male := true,
        disease := 0, reproduction := 5, age := 3, strength := 30 }).2.age = 30 ∧
    ¬ (combatStep
      { is_updated := false, active := true, color := Red, is_male := true,
        disease := 0, reproduction := 5, age := 3, strength := 30 }
      { is_updated := false, active := true, color := Blue, is_male := true,
        disease := 0, reproduction := 5, age := 3, strength := 30 }).2.age = 3 ∧
    (update_person cfg0 1
      { is_updated := false, active := true, color := Red, is_male := true,
        disease := 0, reproduction := 5, age := 3, strength := 10 }
      { diseaseChance := 0, diseaseLength := 1, destination := 4,
        reproReset := 7, babySex := 1, babyRepro := 5, babyStrength := 20,
        infectCoin := 0 }
      true
      { is_updated := false, active := true, color := Blue, is_male := true,
        disease := 0, reproduction := 5, age := 3, strength := 20 }).self.age
      = 10 := by
  norm_num [update_person, preSteps, agingStep, reproStep, diseaseStep,
    birthStep, combatStep, deadPerson, cfg0, recordStats, zeroStats, Red,
    Blue, White]

/-- C4 amended: in the combat block the write is unconditional on who is
weaker: when the target's strength is strictly greater, the acting cell's age
is set to the acting cell's OWN strength and the target is left untouched;
otherwise (target weaker or equal) the target's age is set to the acting
cell's strength and the acting cell is left untouched.  Equal strengths thus
leave the acting cell (the attacker) unharmed, not the target. -/
theorem c4_combat_amended (p t : Person) :
    (p.strength < t.strength →
      (combatStep p t).1.age = (p.strength : ℚ) ∧ (combatStep p t).2 = t) ∧
    (t.strength ≤ p.strength →
      (combatStep p t).1 = p ∧ (combatStep p t).2.age = (p.strength : ℚ)) := by
  unfold combatStep
  constructor
  · intro h
    rw [if_pos h]
    exact ⟨rfl, rfl⟩
  · intro h
    rw [if_neg (not_lt.mpr h)]
    exact ⟨rfl, rfl⟩

/-- C4 witness: the amended combat rule at acting strength 10 against target
strength 20. -/
theorem c4_combat_amended_witness :
    (combatStep
      { is_updated := false, active := true, color := Red, is_male := true,
        disease := 0, reproduction := 5, age := 3, strength := 10 }
      { is_updated := false, active := true, color := Blue, is_male := true,
        disease := 0, reproduction := 5, age := 3, strength := 20 }).1.age = 10 ∧
    (combatStep
      { is_updated := false, active := true, color := Red, is_male := true,
        disease := 0, reproduction := 5, age := 3, strength := 10 }
      { is_updated := false, active := true, color := Blue, is_male := true,
        disease := 0, reproduction := 5, age := 3, strength := 20 }).2 =
      { is_updated := false, active := true, color := Blue, is_male := true,
        disease := 0, reproduction := 5, age := 3, strength := 20 } := by
  have h := (c4_combat_amended
    { is_updated := false, active := true, color := Red, is_male := true,
      disease := 0, reproduction := 5, age := 3, strength := 10 }
    { is_updated := false, active := true, color := Blue, is_male := true,
      disease := 0, reproduction := 5, age := 3, strength := 20 }).1
    (by norm_num)
  exact ⟨by simpa using h.1, h.2⟩

/-- C5 counterexample: cell access with x beyond the width does not fail.
On a 4-wide, 3-high grid, accessing (x, y) = (5, 0) has x at least width yet
returns the cell at row-major index 5 (which is cell (1, 1)), because
operator() (line 78) indexes the vector with y * Width + x without any
coordinate check. -/
theorem c5_no_bounds_check_cex :
    ((Map.mk 4 3 (List.replicate 12 deadPerson)).cell 5 0).isSome = true ∧
    4 ≤ 5 := by
  exact ⟨rfl, by norm_num⟩

/-- C5 amended: cell access performs no coordinate bounds check at all: on a
grid whose vector has the expected Width * Height length, access at (x, y)
stays inside the underlying vector exactly when the row-major index
y * Width + x is below Width * Height — even when x is at least the width
(the access then silently lands on a cell of a later row); it leaves the
vector (undefined behavior) exactly when y * Width + x reaches
Width * Height. -/
theorem c5_cell_access_amended (m : Map) (x y : Nat)
    (hlen : m.population_grid.length = m.Width * m.Height) :
    (m.cell x y).isSome = true ↔ y * m.Width + x < m.Width * m.Height := by
  unfold Map.cell
  rw [Option.isSome_iff_ne_none, ne_eq, List.getElem?_eq_none_iff, not_le,
    hlen]

/-- C5 witness: the amended access characterization on a concrete 4-by-3
grid at (1, 2). -/
theorem c5_cell_access_amended_witness :
    ((Map.mk 4 3 (List.replicate 12 deadPerson)).cell 1 2).isSome = true ↔
      2 * 4 + 1 < 4 * 3 :=
  c5_cell_access_amended (Map.mk 4 3 (List.replicate 12 deadPerson)) 1 2
    (by simp)

/-- C6 counterexample: the four hard-coded thread ranges do not cover every
cell for every grid size.  For a grid of 5 cells (e.g. width 5, height 1)
each range is [k * 1, k * 1 + 1) for k = 0..3, so the last cell, index 4, is
covered by none of them. -/
theorem c6_uncovered_cell_cex :
    coverCount (thread_list 5) 4 = 0 ∧ 4 < 5 := by
  decide

/-- C6 amended: when 4 divides Width * Height (as in the reference
640 x 360 = 230400 map) the four ranges dispatched by lines 433-438 are
contiguous equal-length quarters [k * total/4, (k+1) * total/4) that cover
every row-major index exactly once and stay within the grid; in general the
last total mod 4 cells belong to no range. -/
theorem c6_partition_amended (total : Nat) (h : 4 ∣ total) :
    (∀ i, i < total → coverCount (thread_list total) i = 1) ∧
    (∀ r, r ∈ thread_list total → r.2 = total / 4) ∧
    (∀ r, r ∈ thread_list total → r.1 + r.2 ≤ total) := by
  obtain ⟨q, rfl⟩ := h
  have hq : 4 * q / 4 = q := Nat.mul_div_cancel_left q (by norm_num)
  refine ⟨?_, ?_, ?_⟩
  · intro i hi
    simp only [thread_list, coverCount, hq]
    split_ifs <;> omega
  · intro r hr
    simp only [thread_list, List.mem_cons, List.not_mem_nil, or_false] at hr
    rcases hr with rfl | rfl | rfl | rfl <;> rfl
  · intro r hr
    simp only [thread_list, List.mem_cons, List.not_mem_nil, or_false] at hr
    rcases hr with rfl | rfl | rfl | rfl <;> simp only [hq] <;> omega

/-- C6 witness: on the reference map (230400 cells, divisible by 4) the last
cell is covered exactly once. -/
theorem c6_partition_amended_witness :
    coverCount (thread_list 230400) 230399 = 1 :=
  (c6_partition_amended 230400 ⟨57600, rfl⟩).1 230399 (by norm_num)

lemma agingStep_eq (dt : ℚ) (p : Person) :
    agingStep dt p =
      if p.age + dt ≥ (p.strength : ℚ) ∨ p.age + dt ≥ 85 then deadPerson
      else { p with age := p.age + dt } := rfl

lemma agingStep_of_alive (dt : ℚ) (p : Person)
    (h3 : p.age + dt < (p.strength : ℚ)) (h4 : p.age + dt < 85) :
    agingStep dt p = { p with age := p.age + dt } := by
  have hc : ¬ (p.age + dt ≥ (p.strength : ℚ) ∨ p.age + dt ≥ 85) := by
    push_neg
    exact ⟨h3, h4⟩
  rw [agingStep_eq, if_neg hc]

lemma reproStep_pres (dt : ℚ) (p : Person) :
    (reproStep dt p).active = p.active ∧
    (reproStep dt p).is_updated = p.is_updated ∧
    (reproStep dt p).color = p.color ∧
    (reproStep dt p).strength = p.strength ∧
    (reproStep dt p).is_male = p.is_male ∧
    (reproStep dt p).age = p.age ∧
    (reproStep dt p).disease = p.disease := by
  unfold reproStep
  split_ifs <;> exact ⟨rfl, rfl, rfl, rfl, rfl, rfl, rfl⟩

lemma reproStep_reproduction (dt : ℚ) (p : Person) :
    (reproStep dt p).reproduction =
      if p.is_male then p.reproduction else p.reproduction - dt := by
  unfold reproStep
  split_ifs <;> rfl

lemma diseaseStep_pres (cfg : Config) (dt : ℚ) (p : Person) (c l : Nat) :
    (diseaseStep cfg dt p c l).active = p.active ∧
    (diseaseStep cfg dt p c l).is_updated = p.is_updated ∧
    (diseaseStep cfg dt p c l).color = p.color ∧
    (diseaseStep cfg dt p c l).strength = p.strength ∧
    (diseaseStep cfg dt p c l).is_male = p.is_male ∧
    (diseaseStep cfg dt p c l).reproduction = p.reproduction := by
  unfold diseaseStep
  split_ifs <;> exact ⟨rfl, rfl, rfl, rfl, rfl, rfl⟩

lemma diseaseStep_age_of_healthy (cfg : Config) (dt : ℚ) (p : Person)
    (c l : Nat) (h5 : p.disease ≤ 0) :
    (diseaseStep cfg dt p c l).age = p.age := by
  unfold diseaseStep
  rw [if_neg (not_lt.mpr h5)]
  split_ifs <;> rfl

lemma preSteps_fields (cfg : Config) (dt : ℚ) (p : Person) (c l : Nat)
    (h3 : p.age + dt < (p.strength : ℚ)) (h4 : p.age + dt < 85) :
    (preSteps cfg dt p c l).active = p.active ∧
    (preSteps cfg dt p c l).is_updated = p.is_updated ∧
    (preSteps cfg dt p c l).color = p.color ∧
    (preSteps cfg dt p c l).strength = p.strength ∧
    (preSteps cfg dt p c l).is_male = p.is_male ∧
    (preSteps cfg dt p c l).reproduction =
      (if p.is_male then p.reproduction else p.reproduction - dt) := by
  unfold preSteps
  rw [agingStep_of_alive dt p h3 h4]
  obtain ⟨d1, d2, d3, d4, d5, d6⟩ :=
    diseaseStep_pres cfg dt (reproStep dt { p with age := p.age + dt }) c l
  obtain ⟨r1, r2, r3, r4, r5, r6, r7⟩ :=
    reproStep_pres dt { p with age := p.age + dt }
  rw [d1, d2, d3, d4, d5, d6, r1, r2, r3, r4, r5,
    reproStep_reproduction dt { p with age := p.age + dt }]
  exact ⟨rfl, rfl, rfl, rfl, rfl, rfl⟩

lemma preSteps_age (cfg : Config) (dt : ℚ) (p : Person) (c l : Nat)
    (h3 : p.age + dt < (p.strength : ℚ)) (h4 : p.age + dt < 85)
    (h5 : p.disease ≤ 0) :
    (preSteps cfg dt p c l).age = p.age + dt := by
  unfold preSteps
  rw [agingStep_of_alive dt p h3 h4]
  have hrd : (reproStep dt { p with age := p.age + dt }).disease ≤ 0 := by
    rw [(reproStep_pres dt { p with age := p.age + dt }).2.2.2.2.2.2]
    exact h5
  rw [diseaseStep_age_of_healthy cfg dt (reproStep dt { p with age := p.age + dt })
    c l hrd]
  exact (reproStep_pres dt { p with age := p.age + dt }).2.2.2.2.2.1

/-- C7: a healthy person (disease at most 0) catches a new infection for
exactly one of the ChanceForDisease + 1 equally likely values of the draw of
line 353 (the value 1), i.e. with probability 1 / (ChanceForDisease + 1);
and when it does, the infection duration is the value of the uniform draw of
line 356 over the inclusive range from 1 to int(MaxLengthDisease). -/
theorem c7_disease_draw (cfg : Config) (dt : ℚ) (p : Person) (d : Nat)
    (hp : p.disease ≤ 0) (hc : 1 ≤ cfg.ChanceForDisease)
    (hd1 : 1 ≤ d) (hd2 : (d : Int) ≤ ratTruncToInt cfg.MaxLengthDisease) :
    (Finset.filter (fun r => 0 < (diseaseStep cfg dt p r d).disease)
        (Finset.range (cfg.ChanceForDisease + 1))).card = 1 ∧
    (diseaseStep cfg dt p 1 d).disease = (d : ℚ) := by
  have hnot : ¬ 0 < p.disease := not_lt.mpr hp
  have hstep : ∀ r : Nat, (diseaseStep cfg dt p r d).disease =
      if r = 1 then (d : ℚ) else p.disease := by
    intro r
    unfold diseaseStep
    rw [if_neg hnot]
    split_ifs <;> rfl
  have hpos : (0 : ℚ) < (d : ℚ) := by
    exact_mod_cast Nat.lt_of_lt_of_le Nat.zero_lt_one hd1
  constructor
  · have hfil : (Finset.filter (fun r => 0 < (diseaseStep cfg dt p r d).disease)
        (Finset.range (cfg.ChanceForDisease + 1))) = {1} := by
      ext r
      simp only [Finset.mem_filter, Finset.mem_range, Finset.mem_singleton]
      constructor
      · rintro ⟨hr, hgt⟩
        by_contra hne
        rw [hstep r, if_neg hne] at hgt
        exact hnot hgt
      · rintro rfl
        refine ⟨by omega, ?_⟩
        rw [hstep 1, if_pos rfl]
        exact hpos
    rw [hfil, Finset.card_singleton]
  · rw [hstep 1, if_pos rfl]

/-- C7 witness: with ChanceForDisease 2 and a duration draw of 2 within
int(MaxLengthDisease) = 2, the infection fires for exactly one of the three
draw values and stores duration 2. -/
theorem c7_disease_draw_witness :
    (Finset.filter
        (fun r => 0 < (diseaseStep
          ⟨1280, 720, 640, 360, 16, 2, 2, 3, 12, 40, 85⟩ 1 deadPerson r 2).disease)
        (Finset.range 3)).card = 1 ∧
    (diseaseStep ⟨1280, 720, 640, 360, 16, 2, 2, 3, 12, 40, 85⟩ 1
        deadPerson 1 2).disease = (2 : ℚ) := by
  have h := c7_disease_draw ⟨1280, 720, 640, 360, 16, 2, 2, 3, 12, 40, 85⟩ 1
    deadPerson 2 (by norm_num [deadPerson]) (by norm_num) (by norm_num)
    (by rw [ratTruncToInt, if_pos (by norm_num : (0:ℚ) ≤ 2)]
        exact Rat.le_floor.mpr (by norm_num))
  exact ⟨h.1, by rw [h.2]; norm_num⟩

/-- C8 counterexample: the newborn strength range does not have the claimed
lower bound max(parentStrength - 15, 15).  For a parent of strength 20 the
lower bound passed to generate_random at line 380 is 20 - 15 = 5, not
max(20 - 15, 15) = 15, and the draw 5 (legal for the code's range [5, 50])
produces an active newborn of strength 5, below the claimed range. -/
theorem c8_strength_range_cex :
    birth_strength_min 20 = 5 ∧
    spec_birth_strength_min 20 = 15 ∧
    (update_person cfg0 1
      { is_updated := false, active := true, color := Red, is_male := false,
        disease := 0, reproduction := 1, age := 5, strength := 20 }
      { diseaseChance := 0, diseaseLength := 1, destination := 4,
        reproReset := 7, babySex := 1, babyRepro := 5, babyStrength := 5,
        infectCoin := 0 }
      true deadPerson).target.strength = 5 ∧
    (update_person cfg0 1
      { is_updated := false, active := true, color := Red, is_male := false,
        disease := 0, reproduction := 1, age := 5, strength := 20 }
      { diseaseChance := 0, diseaseLength := 1, destination := 4,
        reproReset := 7, babySex := 1, babyRepro := 5, babyStrength := 5,
        infectCoin := 0 }
      true deadPerson).target.active = true ∧
    ¬ spec_birth_strength_min 20 ≤
      (update_person cfg0 1
        { is_updated := false, active := true, color := Red, is_male := false,
          disease := 0, reproduction := 1, age := 5, strength := 20 }
        { diseaseChance := 0, diseaseLength := 1, destination := 4,
          reproReset := 7, babySex := 1, babyRepro := 5, babyStrength := 5,
          infectCoin := 0 }
        true deadPerson).target.strength := by
  norm_num [update_person, preSteps, agingStep, reproStep, diseaseStep,
    birthStep, combatStep, deadPerson, cfg0, recordStats, zeroStats, Red,
    White, birth_strength_min, spec_birth_strength_min]

/-- C8 amended: the newborn written by the birth block gets exactly the
strength draw of line 380, whose range is
[birth_strength_min parentStrength, parentStrength + 30] with
birth_strength_min s = (s - 15 if 15 < s, else 15) — this equals the claimed
max(s - 15, 15) only for s at most 15 or at least 30; the newborn further has
age 1, the updated flag set, and the parent's active flag and color, while
the parent keeps its position with its reproduction timer reset to the draw
of line 374. -/
theorem c8_birth_amended (p : Person) (dr : Draws)
    (hd1 : birth_strength_min p.strength ≤ dr.babyStrength)
    (hd2 : dr.babyStrength ≤ birth_strength_max p.strength) :
    (birthStep p dr).2.strength = dr.babyStrength ∧
    birth_strength_min p.strength ≤ (birthStep p dr).2.strength ∧
    (birthStep p dr).2.strength ≤ p.strength + 30 ∧
    (birthStep p dr).2.age = 1 ∧
    (birthStep p dr).2.is_updated = true ∧
    (birthStep p dr).2.active = p.active ∧
    (birthStep p dr).2.color = p.color ∧
    (birthStep p dr).1.reproduction = (dr.reproReset : ℚ) ∧
    (birthStep p dr).1.active = p.active := by
  exact ⟨rfl, hd1, hd2, rfl, rfl, rfl, rfl, rfl, rfl⟩

/-- C8 witness: the amended birth description for a parent of strength 20
and a strength draw of 5. -/
theorem c8_birth_amended_witness :
    (birthStep
      { is_updated := false, active := true, color := Red, is_male := false,
        disease := 0, reproduction := 1, age := 5, strength := 20 }
      { diseaseChance := 0, diseaseLength := 1, destination := 4,
        reproReset := 7, babySex := 1, babyRepro := 5, babyStrength := 5,
        infectCoin := 0 }).2.strength = 5 ∧
    (birthStep
      { is_updated := false, active := true, color := Red, is_male := false,
        disease := 0, reproduction := 1, age := 5, strength := 20 }
      { diseaseChance := 0, diseaseLength := 1, destination := 4,
        reproReset := 7, babySex := 1, babyRepro := 5, babyStrength := 5,
        infectCoin := 0 }).2.age = 1 := by
  have h := c8_birth_amended
    { is_updated := false, active := true, color := Red, is_male := false,
      disease := 0, reproduction := 1, age := 5, strength := 20 }
    { diseaseChance := 0, diseaseLength := 1, destination := 4,
      reproReset := 7, babySex := 1, babyRepro := 5, babyStrength := 5,
      infectCoin := 0 }
    (by norm_num [birth_strength_min]) (by norm_num [birth_strength_max])
  exact ⟨h.1, h.2.2.2.1⟩

/-- C9 counterexample: the claim misses the hard age cap of 85 at line 336.
A healthy active person with age 84.5 and strength 100 satisfies
age < strength - dt for dt = 1 (84.5 < 99), yet one tick kills it, because
84.5 + 1 reaches the 85 cap. -/
theorem c9_age85_cex :
    (84.5 : ℚ) < 100 - 1 ∧
    (update_person cfg0 1
      { is_updated := false, active := true, color := Red, is_male := true,
        disease := 0, reproduction := 5, age := 84.5, strength := 100 }
      { diseaseChance := 0, diseaseLength := 1, destination := 4,
        reproReset := 7, babySex := 1, babyRepro := 5, babyStrength := 20,
        infectCoin := 0 }
      false deadPerson).self.active = false := by
  norm_num [update_person, preSteps, agingStep, reproStep, diseaseStep,
    birthStep, combatStep, deadPerson, cfg0, recordStats, zeroStats, Red,
    White]

/-- C9 amended: an active, not-yet-updated, healthy person whose incremented
age stays below both its strength and the 85 cap survives the tick with age
incremented by exactly dt, provided it does not lose a fight to a strictly
stronger enemy this tick: it ends either still in its own cell, or (if the
move branch fired) as the copy written to the destination cell with the
updated flag set. -/
theorem c9_survival_amended (cfg : Config) (dt : ℚ) (p0 : Person)
    (dr : Draws) (destIsGrass : Bool) (t0 : Person)
    (h1 : p0.active = true) (h2 : p0.is_updated = false)
    (h5 : p0.disease ≤ 0)
    (h3 : p0.age + dt < (p0.strength : ℚ)) (h4 : p0.age + dt < 85)
    (h6 : ¬ (destIsGrass = true ∧ t0.active = true ∧ t0.color ≠ p0.color ∧
      p0.strength < t0.strength)) :
    ((update_person cfg dt p0 dr destIsGrass t0).self.active = true ∧
     (update_person cfg dt p0 dr destIsGrass t0).self.age = p0.age + dt) ∨
    ((update_person cfg dt p0 dr destIsGrass t0).self.active = false ∧
     (update_person cfg dt p0 dr destIsGrass t0).target.active = true ∧
     (update_person cfg dt p0 dr destIsGrass t0).target.age = p0.age + dt ∧
     (update_person cfg dt p0 dr destIsGrass t0).target.is_updated = true) := by
  obtain ⟨f1, f2, f3, f4, f5, f6⟩ :=
    preSteps_fields cfg dt p0 dr.diseaseChance dr.diseaseLength h3 h4
  have fa := preSteps_age cfg dt p0 dr.diseaseChance dr.diseaseLength h3 h4 h5
  unfold update_person
  simp only [h1, h2, Bool.and_false, Bool.false_eq_true, if_false, if_true]
  cases destIsGrass with
  | false =>
    left
    simp only [Bool.false_eq_true, if_false]
    exact ⟨by rw [f1, h1], fa⟩
  | true =>
    simp only [if_true]
    cases ht : t0.active with
    | false =>
      simp only [ht, Bool.not_false, if_true]
      by_cases hb : (preSteps cfg dt p0 dr.diseaseChance dr.diseaseLength).is_male
          = false ∧
          (preSteps cfg dt p0 dr.diseaseChance dr.diseaseLength).reproduction ≤ 0
      · rw [if_pos hb]
        left
        exact ⟨by rw [show (birthStep _ dr).1.active =
          (preSteps cfg dt p0 dr.diseaseChance dr.diseaseLength).active from rfl,
          f1, h1], by rw [show (birthStep _ dr).1.age =
          (preSteps cfg dt p0 dr.diseaseChance dr.diseaseLength).age from rfl, fa]⟩
      · rw [if_neg hb]
        right
        refine ⟨rfl, ?_, ?_, rfl⟩
        · rw [show ({ preSteps cfg dt p0 dr.diseaseChance dr.diseaseLength with
            is_updated := true } : Person).active =
            (preSteps cfg dt p0 dr.diseaseChance dr.diseaseLength).active from rfl,
            f1, h1]
        · exact fa
    | true =>
      simp only [ht, Bool.not_true, Bool.false_eq_true, if_false]
      by_cases hcol : t0.color =
          (preSteps cfg dt p0 dr.diseaseChance dr.diseaseLength).color
      · rw [if_pos hcol]
        split_ifs
        · left
          exact ⟨by rw [f1, h1], fa⟩
        · left
          exact ⟨by rw [f1, h1], fa⟩
      · rw [if_neg hcol]
        have hnl : ¬ (preSteps cfg dt p0 dr.diseaseChance dr.diseaseLength).strength
            < t0.strength := by
          rw [f4]
          intro hlt
          apply h6
          refine ⟨rfl, ht, ?_, hlt⟩
          rw [f3] at hcol
          exact hcol
        left
        unfold combatStep
        rw [if_neg hnl]
        exact ⟨by rw [f1, h1], fa⟩

/-- C9 witness: the amended survival statement for a healthy 10-year-old of
strength 40 over a tick of length 1 with a blocked destination. -/
theorem c9_survival_amended_witness :
    ((update_person cfg0 1
      { is_updated := false, active := true, color := Red, is_male := true,
        disease := 0, reproduction := 5, age := 10, strength := 40 }
      { diseaseChance := 0, diseaseLength := 1, destination := 4,
        reproReset := 7, babySex := 1, babyRepro := 5, babyStrength := 20,
        infectCoin := 0 }
      false deadPerson).self.active = true ∧
     (update_person cfg0 1
      { is_updated := false, active := true, color := Red, is_male := true,
        disease := 0, reproduction := 5, age := 10, strength := 40 }
      { diseaseChance := 0, diseaseLength := 1, destination := 4,
        reproReset := 7, babySex := 1, babyRepro := 5, babyStrength := 20,
        infectCoin := 0 }
      false deadPerson).self.age = 10 + 1) ∨
    ((update_person cfg0 1
      { is_updated := false, active := true, color := Red, is_male := true,
        disease := 0, reproduction := 5, age := 10, strength := 40 }
      { diseaseChance := 0, diseaseLength := 1, destination := 4,
        reproReset := 7, babySex := 1, babyRepro := 5, babyStrength := 20,
        infectCoin := 0 }
      false deadPerson).self.active = false ∧
     (update_person cfg0 1
      { is_updated := false, active := true, color := Red, is_male := true,
        disease := 0, reproduction := 5, age := 10, strength := 40 }
      { diseaseChance := 0, diseaseLength := 1, destination := 4,
        reproReset := 7, babySex := 1, babyRepro := 5, babyStrength := 20,
        infectCoin := 0 }
      false deadPerson).target.active = true ∧
     (update_person cfg0 1
      { is_updated := false, active := true, color := Red, is_male := true,
        disease := 0, reproduction := 5, age := 10, strength := 40 }
      { diseaseChance := 0, diseaseLength := 1, destination := 4,
        reproReset := 7, babySex := 1, babyRepro := 5, babyStrength := 20,
        infectCoin := 0 }
      false deadPerson).target.age = 10 + 1 ∧
     (update_person cfg0 1
      { is_updated := false, active := true, color := Red, is_male := true,
        disease := 0, reproduction := 5, age := 10, strength := 40 }
      { diseaseChance := 0, diseaseLength := 1, destination := 4,
        reproReset := 7, babySex := 1, babyRepro := 5, babyStrength := 20,
        infectCoin := 0 }
      false deadPerson).target.is_updated = true) :=
  c9_survival_amended cfg0 1
    { is_updated := false, active := true, color := Red, is_male := true,
      disease := 0, reproduction := 5, age := 10, strength := 40 }
    { diseaseChance := 0, diseaseLength := 1, destination := 4,
      reproReset := 7, babySex := 1, babyRepro := 5, babyStrength := 20,
      infectCoin := 0 }
    false deadPerson rfl rfl (by norm_num) (by norm_num) (by norm_num)
    (by simp)

/-- C10: the statistics formatter never divides by zero: the divisor used for
the per-team averages is the alive count when positive and 1 otherwise, so
the average is sum / count for a nonempty team and the raw sum (0 for an
empty team, since nothing was accumulated) when the count is 0. -/
theorem c10_stat_avg (sum count : Nat) :
    0 < (if 0 < count then count else 1) ∧
    (0 < count → stat_avg sum count = sum / count) ∧
    (count = 0 → stat_avg sum count = sum) := by
  refine ⟨by split_ifs <;> omega, ?_, ?_⟩
  · intro h
    unfold stat_avg
    rw [if_pos h]
  · intro h
    subst h
    unfold stat_avg
    norm_num

/-- C10 witness: averages at counts 4 and 0. -/
theorem c10_stat_avg_witness : stat_avg 12 4 = 3 ∧ stat_avg 7 0 = 7 := by
  constructor
  · rw [(c10_stat_avg 12 4).2.1 (by norm_num)]
  · exact (c10_stat_avg 7 0).2.2 rfl

end PixelCiv
